import Mathlib

/-!
Shallow embedding of `src/torchaudio/csrc/ffmpeg/ffmpeg.cpp`: exception-safe
ownership wrappers around FFmpeg's C handles (format context, packet, frame,
codec context, filter graph) together with the option-dictionary validation
helpers (`get_option_dict`, `clean_up_dict`, `join`).

Modelling conventions:
- Calls into the external FFmpeg library are parameters, collected in
  environment records (`FormatEnv`, `CodecEnv`, ...).  An environment field
  mirrors the corresponding C function's observable behaviour: status code,
  which dictionary keys the call consumed, the data it filled in.
- C++ `throw` is `Except.error`; each throw site in the source gets its own
  `FFErr` constructor, carrying the exact message string the source builds.
- Resource lifetime is tracked explicitly: a constructor's outcome records how
  many native objects were allocated during the run but are, on return,
  neither freed nor owned by the returned handle ("leaked").
-/

set_option autoImplicit false

deriving instance DecidableEq for Except

/-- Errors thrown (as `std::runtime_error`) by the wrappers, tagged by throw
site.  The tag names follow the spec's error taxonomy; the payload is the
message string the source constructs. -/
inductive FFErr where
  | unrecognizedOption (msg : String)
  | openError (msg : String)
  | streamInfo (msg : String)
  | allocation (msg : String)
  | unsupportedCodec (msg : String)
  | parameter (msg : String)
  | codecOpen (msg : String)
  deriving DecidableEq, Repr

/-- Substring containment, used to state "the message contains ...". -/
def containsSub (s sub : String) : Prop := ∃ a b, s = a ++ (sub ++ b)

/-- An `AVDictionary`: an ordered list of key/value entries. -/
abbrev AVDictionary := List (String × String)

/-- `av_dict_set` with flags 0: if the key is already present its value is
replaced in place, otherwise the new entry is appended at the end. -/
def av_dict_set (d : AVDictionary) (k v : String) : AVDictionary :=
  if d.any (fun e => e.1 = k) then
    d.map (fun e => if e.1 = k then (k, v) else e)
  else
    d ++ [(k, v)]

/-- `get_option_dict`: convert the caller's ordered option map (a `std::map`,
iterated in its key order) into an `AVDictionary` by repeated `av_dict_set`. -/
def get_option_dict (option : List (String × String)) : AVDictionary :=
  option.foldl (fun opt it => av_dict_set opt it.1 it.2) []

/-- `clean_up_dict`: walk the dictionary entries in order with `av_dict_get`
collecting every remaining key, then `av_dict_free` the dictionary. -/
def clean_up_dict (p : AVDictionary) : List String :=
  p.map Prod.fst

/-- Tail of `join`'s loop: every element after the first is rendered as
`, "elem"`. -/
def joinTail : List String → String
  | [] => ""
  | v :: vs => ", \"" ++ v ++ "\"" ++ joinTail vs

/-- `join`: the source's indexed loop; the element at index 0 is rendered as
`"elem"`, all later ones as `, "elem"`. -/
def join : List String → String
  | [] => ""
  | v :: vs => "\"" ++ v ++ "\"" ++ joinTail vs

/-- Rendering of a key list as the spec words it: each key double-quoted,
consecutive keys separated by `", "`.  (Spec-side definition, to be compared
with the source's `join`.) -/
def quotedKeyList : List String → String
  | [] => ""
  | [v] => "\"" ++ v ++ "\""
  | v :: vs => "\"" ++ v ++ "\"" ++ ", " ++ quotedKeyList vs

/-! ## FormatContext -/

/-- An input-format descriptor (`AVInputFormat`), identified by name. -/
structure InputFormat where
  ifname : String
  deriving DecidableEq, Repr

/-- The observable state of an `AVFormatContext` produced by the wrapper:
which source it was opened from and whether stream information was probed. -/
structure AVFormatContext where
  src : String
  streamInfoFound : Bool
  deriving DecidableEq, Repr

/-- The external libavformat/libavdevice behaviour visible to this module.
`avformat_open_input` returns its status code and the predicate telling which
dictionary keys the call consumed (consumed entries are removed from the
dictionary; unconsumed ones remain, in order).  Library contract: on success
(status `≥ 0`) a context is allocated and handed to the caller; on failure the
library frees anything it allocated and the out-pointer stays NULL. -/
structure FormatEnv where
  av_find_input_format : String → Option InputFormat
  avformat_open_input : String → Option InputFormat → AVDictionary → Int × (String → Bool)
  avformat_find_stream_info : AVFormatContext → Int
  av_err2string : Int → String

/-- Outcome of a format-context constructor run.  `fmtLeaked` / `dictLeaked`
count native objects allocated during the run that on return are neither freed
nor owned by the returned handle. -/
structure FmtOutcome where
  result : Except FFErr AVFormatContext
  fmtLeaked : Nat
  dictLeaked : Nat
  deriving DecidableEq, Repr

/-- `device.empty() ? NULL : av_find_input_format(device.c_str())`. -/
def resolvedInputFormat (env : FormatEnv) (device : String) : Option InputFormat :=
  if device = "" then none else env.av_find_input_format device

/-- The single `avformat_open_input` call made by `get_format_context`:
source, resolved input format (possibly NULL), converted option dictionary. -/
def fmtOpenCall (env : FormatEnv) (src device : String)
    (option : List (String × String)) : Int × (String → Bool) :=
  env.avformat_open_input src (resolvedInputFormat env device) (get_option_dict option)

/-- The status `ret` returned by the open call. -/
def fmtOpenStatus (env : FormatEnv) (src device : String)
    (option : List (String × String)) : Int :=
  (fmtOpenCall env src device option).1

/-- The dictionary entries the open call left unconsumed, in order. -/
def fmtRemaining (env : FormatEnv) (src device : String)
    (option : List (String × String)) : AVDictionary :=
  (get_option_dict option).filter (fun e => !((fmtOpenCall env src device option).2 e.1))

/-- `get_format_context`: open the input, then check the dictionary for unused
keys (throwing before the status check), then check the open status.  On the
unused-keys throw after a successful open (`0 ≤ ret`) the opened context is
neither closed nor owned by anyone: it is counted as leaked.  On a failed open
the library itself freed the context (see `FormatEnv`), so nothing leaks. -/
def get_format_context (env : FormatEnv) (src device : String)
    (option : List (String × String)) : FmtOutcome :=
  let ret := fmtOpenStatus env src device option
  let unused_keys := clean_up_dict (fmtRemaining env src device option)
  if unused_keys.length ≠ 0 then
    { result := .error (.unrecognizedOption ("Unexpected options: " ++ join unused_keys)),
      fmtLeaked := if 0 ≤ ret then 1 else 0,
      dictLeaked := 0 }
  else if ret < 0 then
    { result := .error (.openError ("Failed to open the input \"" ++ src ++ "\" ("
        ++ env.av_err2string ret ++ ").")),
      fmtLeaked := 0,
      dictLeaked := 0 }
  else
    { result := .ok { src := src, streamInfoFound := false },
      fmtLeaked := 0,
      dictLeaked := 0 }

/-- The `AVFormatContextPtr` constructor: the `Wrapper` base takes ownership of
`get_format_context`'s result before the body runs, so when
`avformat_find_stream_info` fails and the body throws, the base's destructor
closes the context (nothing leaks on that path). -/
def AVFormatContextPtr.make (env : FormatEnv) (src device : String)
    (option : List (String × String)) : FmtOutcome :=
  let g := get_format_context env src device option
  match g.result with
  | .error _ => g
  | .ok ctx =>
    if env.avformat_find_stream_info ctx < 0 then
      { result := .error (.streamInfo "Failed to find stream information."),
        fmtLeaked := 0, dictLeaked := 0 }
    else
      { result := .ok { ctx with streamInfoFound := true },
        fmtLeaked := 0, dictLeaked := 0 }

/-! ## Packet and Frame -/

/-- The observable state of an `AVPacket`: its identity and whether it
currently references data buffers. -/
structure AVPacket where
  pid : Nat
  hasBuffer : Bool
  deriving DecidableEq, Repr

/-- External behaviour of `av_packet_alloc`: `none` models a NULL return (in
which case the library allocated nothing). -/
structure PacketEnv where
  av_packet_alloc : Option AVPacket

/-- `get_av_packet`: allocate, throw on NULL. -/
def get_av_packet (env : PacketEnv) : Except FFErr AVPacket :=
  match env.av_packet_alloc with
  | none => .error (.allocation "Failed to allocate AVPacket object.")
  | some pPacket => .ok pPacket

/-- The `AVPacketPtr` constructor. -/
def AVPacketPtr.make (env : PacketEnv) : Except FFErr AVPacket :=
  get_av_packet env

/-- Events a packet can undergo, for the guard round-trip property. -/
inductive PacketEv where
  | unref
  | alloc
  | free
  deriving DecidableEq, Repr

/-- `av_packet_unref`: returns the packet's buffers to the pool; the packet
object itself stays allocated and reusable. -/
def av_packet_unref (p : AVPacket) : AVPacket × List PacketEv :=
  ({ p with hasBuffer := false }, [PacketEv.unref])

/-- `AutoPacketUnref`: the constructor stores a reference to the packet; the
destructor calls `av_packet_unref` on it; nothing else happens on disposal.
This function is the net effect, on the referenced packet, of acquiring the
guard and letting it leave scope, together with the event trace. -/
def autoPacketUnrefScope (p : AVPacket) : AVPacket × List PacketEv :=
  av_packet_unref p

/-- The guard's implicit conversion `operator AVPacket*`: hands out the
wrapped packet unchanged. -/
def AutoPacketUnref.conv (p : AVPacket) : AVPacket := p

/-- The observable state of an `AVFrame`. -/
structure AVFrame where
  fid : Nat
  deriving DecidableEq, Repr

/-- External behaviour of `av_frame_alloc`. -/
structure FrameEnv where
  av_frame_alloc : Option AVFrame

/-- `get_av_frame`: allocate, throw on NULL. -/
def get_av_frame (env : FrameEnv) : Except FFErr AVFrame :=
  match env.av_frame_alloc with
  | none => .error (.allocation "Failed to allocate AVFrame object.")
  | some pFrame => .ok pFrame

/-- The `AVFramePtr` constructor. -/
def AVFramePtr.make (env : FrameEnv) : Except FFErr AVFrame :=
  get_av_frame env

/-! ## CodecContext -/

/-- A decoder (`AVCodec`), identified by name. -/
structure AVCodec where
  cname : String
  deriving DecidableEq, Repr

/-- `AVMEDIA_TYPE_AUDIO` from FFmpeg's `AVMediaType` enum. -/
def AVMEDIA_TYPE_AUDIO : Int := 1

/-- The fields of `AVCodecParameters` this module reads or writes. -/
structure AVCodecParameters where
  codec_id : Nat
  codec_type : Int
  channel_layout : Nat
  channels : Int
  deriving DecidableEq, Repr

/-- The observable state of an `AVCodecContext` built by the wrapper: the
decoder it was allocated for, whether the stream parameters were copied in,
whether the codec was opened, and its channel count. -/
structure AVCodecContext where
  codec : AVCodec
  paramsSet : Bool
  opened : Bool
  channels : Int
  deriving DecidableEq, Repr

/-- The external libavcodec/libavutil behaviour visible to this module.
`avcodec_alloc_context3` returning `false` models a NULL return.
`avcodec_open2` returns its status, the predicate telling which option keys it
consumed, and the channel count the opened context reports.
`avcodec_parameters_to_context` returns its status.
`av_get_default_channel_layout` is libavutil's default layout for a channel
count (0 when the library defines none for that count). -/
structure CodecEnv where
  avcodec_find_decoder : Nat → Option AVCodec
  avcodec_find_decoder_by_name : String → Option AVCodec
  avcodec_get_name : Nat → String
  avcodec_alloc_context3 : AVCodec → Bool
  avcodec_parameters_to_context : AVCodecContext → AVCodecParameters → Int
  avcodec_open2 : AVCodecContext → Option AVCodec → AVDictionary → Int × (String → Bool) × Int
  av_get_default_channel_layout : Int → Nat

/-- The decoder lookup both `get_codec_context` and `init_codec_context`
perform: by name when a decoder name is given, else by codec id. -/
def findDecoder (env : CodecEnv) (codec_id : Nat) (decoder_name : String) : Option AVCodec :=
  if decoder_name = "" then env.avcodec_find_decoder codec_id
  else env.avcodec_find_decoder_by_name decoder_name

/-- `get_codec_context`: look the decoder up; on failure throw the
unsupported-codec error (naming the decoder name if one was given, else the
codec's symbolic name and its numeric id, the latter printed in decimal by
`operator<<`); then allocate a context for it, throwing on NULL (at which
point nothing has been allocated). -/
def get_codec_context (env : CodecEnv) (codec_id : Nat) (decoder_name : String) :
    Except FFErr AVCodecContext :=
  match findDecoder env codec_id decoder_name with
  | none =>
    if decoder_name = "" then
      .error (.unsupportedCodec ("Unsupported codec: \"" ++ env.avcodec_get_name codec_id
        ++ "\", (" ++ toString codec_id ++ ")."))
    else
      .error (.unsupportedCodec ("Unsupported codec: \"" ++ decoder_name ++ "\"."))
  | some pCodec =>
    if env.avcodec_alloc_context3 pCodec then
      .ok { codec := pCodec, paramsSet := false, opened := false, channels := 0 }
    else
      .error (.allocation "Failed to allocate CodecContext.")

/-- The context state after a successful `avcodec_parameters_to_context`
(parameters, including the channel count, are copied into the context). -/
def codecCtxAfterParams (ctx : AVCodecContext) (pParams : AVCodecParameters) : AVCodecContext :=
  { ctx with paramsSet := true, channels := pParams.channels }

/-- The single `avcodec_open2` call made by `init_codec_context`: context
after parameter copy, the (re-computed) decoder lookup, converted option
dictionary. -/
def codecOpenCall (env : CodecEnv) (ctx1 : AVCodecContext) (pParams : AVCodecParameters)
    (decoder_name : String) (decoder_option : List (String × String)) :
    Int × (String → Bool) × Int :=
  env.avcodec_open2 ctx1 (findDecoder env pParams.codec_id decoder_name)
    (get_option_dict decoder_option)

/-- The dictionary entries `avcodec_open2` left unconsumed, in order. -/
def codecRemaining (env : CodecEnv) (ctx1 : AVCodecContext) (pParams : AVCodecParameters)
    (decoder_name : String) (decoder_option : List (String × String)) : AVDictionary :=
  (get_option_dict decoder_option).filter
    (fun e => !((codecOpenCall env ctx1 pParams decoder_name decoder_option).2.1 e.1))

/-- Outcome of `init_codec_context`.  `dictLeaked` counts the option
dictionary when it is abandoned without `av_dict_free`. -/
structure CodecInitOutcome where
  result : Except FFErr (AVCodecContext × AVCodecParameters)
  dictLeaked : Nat
  deriving DecidableEq, Repr

/-- `init_codec_context`: copy the stream parameters into the context
(throwing on failure), open the codec with the converted decoder options
(throwing on failure — note the source does not free the dictionary on this
throw, so leftover entries leak), check for unused option keys (throwing with
the quoted key list), and finally, for audio parameters lacking a channel
layout, back-fill the library's default layout for the opened context's
channel count into the caller-supplied parameters.  (The source re-computes
the decoder lookup before the copy; the lookup is pure, so performing it
inside `codecOpenCall` is observationally identical.)  Returns the final
context state and the possibly-updated parameters. -/
def init_codec_context (env : CodecEnv) (ctx : AVCodecContext) (pParams : AVCodecParameters)
    (decoder_name : String) (decoder_option : List (String × String)) : CodecInitOutcome :=
  if env.avcodec_parameters_to_context ctx pParams < 0 then
    { result := .error (.parameter "Failed to set CodecContext parameter."),
      dictLeaked := 0 }
  else
    let ctx1 := codecCtxAfterParams ctx pParams
    let st := (codecOpenCall env ctx1 pParams decoder_name decoder_option).1
    let remaining := codecRemaining env ctx1 pParams decoder_name decoder_option
    if st < 0 then
      { result := .error (.codecOpen "Failed to initialize CodecContext."),
        dictLeaked := if remaining.isEmpty then 0 else 1 }
    else
      let ch2 := (codecOpenCall env ctx1 pParams decoder_name decoder_option).2.2
      let ctx2 := { ctx1 with opened := true, channels := ch2 }
      let unused_keys := clean_up_dict remaining
      if unused_keys.length ≠ 0 then
        { result := .error (.unrecognizedOption
            ("Unexpected decoder options: " ++ join unused_keys)),
          dictLeaked := 0 }
      else
        { result := .ok (ctx2,
            if pParams.codec_type = AVMEDIA_TYPE_AUDIO ∧ pParams.channel_layout = 0 then
              { pParams with
                channel_layout := env.av_get_default_channel_layout ctx2.channels }
            else pParams),
          dictLeaked := 0 }

/-- Outcome of the `AVCodecContextPtr` constructor. -/
structure CodecOutcome where
  result : Except FFErr (AVCodecContext × AVCodecParameters)
  ctxLeaked : Nat
  dictLeaked : Nat
  deriving DecidableEq, Repr

/-- The `AVCodecContextPtr` constructor: `get_codec_context` runs first and
its result is owned by the `Wrapper` base before the body runs
`init_codec_context`; when the body throws, the base's destructor frees the
context (so the context never leaks; a dictionary abandoned by
`init_codec_context` does). -/
def AVCodecContextPtr.make (env : CodecEnv) (pParams : AVCodecParameters)
    (decoder_name : String) (decoder_option : List (String × String)) : CodecOutcome :=
  match get_codec_context env pParams.codec_id decoder_name with
  | .error e => { result := .error e, ctxLeaked := 0, dictLeaked := 0 }
  | .ok ctx =>
    let o := init_codec_context env ctx pParams decoder_name decoder_option
    match o.result with
    | .error e => { result := .error e, ctxLeaked := 0, dictLeaked := o.dictLeaked }
    | .ok res => { result := .ok res, ctxLeaked := 0, dictLeaked := 0 }

/-! ## FilterGraph -/

/-- The observable state of an `AVFilterGraph`: its identity and how many
filters it contains (`avfilter_graph_alloc` returns an empty graph). -/
structure AVFilterGraph where
  gid : Nat
  nb_filters : Nat
  deriving DecidableEq, Repr

/-- External behaviour of `avfilter_graph_alloc` (`false` models NULL). -/
structure FilterEnv where
  avfilter_graph_alloc_ok : Bool

/-- `get_filter_graph`: allocate a fresh empty graph (its identity `nextGid`
is the allocator's fresh address), throw on NULL. -/
def get_filter_graph (env : FilterEnv) (nextGid : Nat) : Except FFErr AVFilterGraph :=
  if env.avfilter_graph_alloc_ok then .ok { gid := nextGid, nb_filters := 0 }
  else .error (.allocation "Failed to allocate resouce.")

/-- The owning handle: its identity `hid` (the `AVFilterGraphPtr` object seen
by holders) and the graph it currently owns (`none` = null resource). -/
structure AVFilterGraphPtr where
  hid : Nat
  res : Option AVFilterGraph
  deriving DecidableEq, Repr

/-- The `AVFilterGraphPtr` constructor. -/
def AVFilterGraphPtr.make (env : FilterEnv) (nextGid hid : Nat) :
    Except FFErr AVFilterGraphPtr :=
  match get_filter_graph env nextGid with
  | .error e => .error e
  | .ok g => .ok { hid := hid, res := some g }

/-- Outcome of `AVFilterGraphPtr::reset`: thrown error if any, the handle
afterwards, and the identities of the graphs freed by the call. -/
structure ResetOutcome where
  result : Except FFErr Unit
  handle : AVFilterGraphPtr
  freedGids : List Nat
  deriving DecidableEq, Repr

/-- `AVFilterGraphPtr::reset`: `ptr.reset(get_filter_graph())` — the fresh
graph is allocated first (a throw there leaves the handle untouched), then
`unique_ptr::reset` frees the old graph and installs the new one in the same
handle object. -/
def AVFilterGraphPtr.reset (env : FilterEnv) (nextGid : Nat) (h : AVFilterGraphPtr) :
    ResetOutcome :=
  match get_filter_graph env nextGid with
  | .error e => { result := .error e, handle := h, freedGids := [] }
  | .ok g =>
    { result := .ok (),
      handle := { h with res := some g },
      freedGids := (h.res.map (fun g0 => g0.gid)).toList }

/-- Recognizer for the open-failure error, to state that an outcome is not an
`OpenError`. -/
def isOpenErr : Except FFErr AVFormatContext → Bool
  | .error (.openError _) => true
  | _ => false

/-! ## Concrete environments used by witnesses and counterexamples -/

/-- A library in which opening succeeds but consumes no option keys. -/
def fmtEnvLeak : FormatEnv :=
  { av_find_input_format := fun _ => none,
    avformat_open_input := fun _ _ _ => (0, fun _ => false),
    avformat_find_stream_info := fun _ => 0,
    av_err2string := fun _ => "generic error" }

/-- A library in which opening fails with status -2 and consumes nothing. -/
def fmtEnvOpenFail : FormatEnv :=
  { av_find_input_format := fun _ => none,
    avformat_open_input := fun _ _ _ => (-2, fun _ => false),
    avformat_find_stream_info := fun _ => 0,
    av_err2string := fun _ => "No such file or directory" }

/-- A library that resolves no device name, yet opens any source successfully
(auto-detection), consuming every option key. -/
def fmtEnvAuto : FormatEnv :=
  { av_find_input_format := fun _ => none,
    avformat_open_input := fun _ _ _ => (0, fun _ => true),
    avformat_find_stream_info := fun _ => 0,
    av_err2string := fun _ => "" }

/-- A libavcodec in which the decoder is found, the open succeeds reporting 9
channels, and the default-layout table has no entry (returns 0). -/
def codecEnvLayoutZero : CodecEnv :=
  { avcodec_find_decoder := fun _ => some { cname := "aac" },
    avcodec_find_decoder_by_name := fun _ => none,
    avcodec_get_name := fun _ => "aac",
    avcodec_alloc_context3 := fun _ => true,
    avcodec_parameters_to_context := fun _ _ => 0,
    avcodec_open2 := fun _ _ _ => (0, fun _ => true, 9),
    av_get_default_channel_layout := fun _ => 0 }

/-- A libavcodec in which everything succeeds, the opened context reports 2
channels, and the default layout for 2 channels is 3 (stereo). -/
def codecEnvStereo : CodecEnv :=
  { avcodec_find_decoder := fun _ => some { cname := "aac" },
    avcodec_find_decoder_by_name := fun _ => none,
    avcodec_get_name := fun _ => "aac",
    avcodec_alloc_context3 := fun _ => true,
    avcodec_parameters_to_context := fun _ _ => 0,
    avcodec_open2 := fun _ _ _ => (0, fun _ => true, 2),
    av_get_default_channel_layout := fun c => if c = 2 then 3 else 0 }

/-- A libavcodec in which the decoder is found and allocated but
`avcodec_open2` fails with status -1 consuming nothing. -/
def codecEnvOpenFail : CodecEnv :=
  { avcodec_find_decoder := fun _ => some { cname := "aac" },
    avcodec_find_decoder_by_name := fun _ => none,
    avcodec_get_name := fun _ => "aac",
    avcodec_alloc_context3 := fun _ => true,
    avcodec_parameters_to_context := fun _ _ => 0,
    avcodec_open2 := fun _ _ _ => (-1, fun _ => false, 0),
    av_get_default_channel_layout := fun _ => 0 }

/-- A libavcodec that knows no decoder at all. -/
def codecEnvNoDecoder : CodecEnv :=
  { avcodec_find_decoder := fun _ => none,
    avcodec_find_decoder_by_name := fun _ => none,
    avcodec_get_name := fun _ => "h264",
    avcodec_alloc_context3 := fun _ => true,
    avcodec_parameters_to_context := fun _ _ => 0,
    avcodec_open2 := fun _ _ _ => (0, fun _ => true, 0),
    av_get_default_channel_layout := fun _ => 0 }

/-- A libavcodec in which the decoder is found but context allocation
returns NULL. -/
def codecEnvAllocFail : CodecEnv :=
  { avcodec_find_decoder := fun _ => some { cname := "aac" },
    avcodec_find_decoder_by_name := fun _ => none,
    avcodec_get_name := fun _ => "aac",
    avcodec_alloc_context3 := fun _ => false,
    avcodec_parameters_to_context := fun _ _ => 0,
    avcodec_open2 := fun _ _ _ => (0, fun _ => true, 0),
    av_get_default_channel_layout := fun _ => 0 }

/-- Audio stream parameters with no channel layout and 9 channels. -/
def paramsAudioNine : AVCodecParameters :=
  { codec_id := 86018, codec_type := 1, channel_layout := 0, channels := 9 }

/-- Audio stream parameters with no channel layout and 2 channels. -/
def paramsAudioStereo : AVCodecParameters :=
  { codec_id := 86018, codec_type := 1, channel_layout := 0, channels := 2 }

/-- A packet allocator that fails. -/
def pktEnvNone : PacketEnv := { av_packet_alloc := none }

/-- A frame allocator that fails. -/
def frameEnvNone : FrameEnv := { av_frame_alloc := none }

/-- A filter-graph allocator that succeeds. -/
def filterEnvOk : FilterEnv := { avfilter_graph_alloc_ok := true }

/-- A filter-graph allocator that fails. -/
def filterEnvFail : FilterEnv := { avfilter_graph_alloc_ok := false }

/-- A libavcodec in which the decoder is found and the codec opens with
status 0 while consuming no option key (2 channels reported). -/
def codecEnvUnusedKey : CodecEnv :=
  { avcodec_find_decoder := fun _ => some { cname := "aac" },
    avcodec_find_decoder_by_name := fun _ => none,
    avcodec_get_name := fun _ => "aac",
    avcodec_alloc_context3 := fun _ => true,
    avcodec_parameters_to_context := fun _ _ => 0,
    avcodec_open2 := fun _ _ _ => (0, fun _ => false, 2),
    av_get_default_channel_layout := fun _ => 0 }

/-- Video stream parameters (codec id 27 = H.264). -/
def paramsVideo : AVCodecParameters :=
  { codec_id := 27, codec_type := 0, channel_layout := 0, channels := 0 }

/-- The freshly allocated codec context for decoder "aac". -/
def ctxFreshAac : AVCodecContext :=
  { codec := { cname := "aac" }, paramsSet := false, opened := false, channels := 0 }

/-! ## Helper lemmas -/

/-- `clean_up_dict` of a non-empty dictionary yields a non-zero key count. -/
theorem clean_up_dict_length_ne_zero (d : AVDictionary) (h : d ≠ []) :
    (clean_up_dict d).length ≠ 0 := by
  intro hl
  apply h
  have hd : d.length = 0 := by simpa [clean_up_dict] using hl
  exact List.length_eq_zero.mp hd

/-- `clean_up_dict` of the empty dictionary yields no keys. -/
theorem clean_up_dict_nil : clean_up_dict ([] : AVDictionary) = [] := rfl

/-- The source's `join` renders exactly what the spec words: each key
double-quoted, consecutive keys separated by `", "`. -/
theorem join_eq_quotedKeyList : ∀ l : List String, join l = quotedKeyList l := by
  intro l
  match l with
  | [] => rfl
  | [v] =>
    show "\"" ++ v ++ "\"" ++ joinTail [] = "\"" ++ v ++ "\""
    simp [joinTail, String.append_empty]
  | v :: w :: ws =>
    have ih := join_eq_quotedKeyList (w :: ws)
    show "\"" ++ v ++ "\"" ++ joinTail (w :: ws) = quotedKeyList (v :: w :: ws)
    have hjt : joinTail (w :: ws) = ", " ++ join (w :: ws) := by
      show ", \"" ++ w ++ "\"" ++ joinTail ws = ", " ++ ("\"" ++ w ++ "\"" ++ joinTail ws)
      apply String.ext
      simp [String.data_append]
    rw [hjt, ih]
    apply String.ext
    simp [quotedKeyList, String.data_append]

/-! ## Claim theorems -/

/-- C2: the claim that every failure path releases all already-allocated
resources is violated by the code.  With a library whose open call succeeds
(status 0) but consumes no option key, constructing a FormatContext for source
"x" with option set `{foo: bar}` throws the unrecognized-option error while the
successfully opened format context is neither closed nor owned by anything —
it leaks (the throw in `get_format_context` happens before ownership passes to
the `Wrapper` base, and no `avformat_close_input` is on that path). -/
theorem C2_format_leak_on_unused_option_failure :
    (AVFormatContextPtr.make fmtEnvLeak "x" "" [("foo", "bar")]).result
      = .error (.unrecognizedOption "Unexpected options: \"foo\"")
    ∧ (AVFormatContextPtr.make fmtEnvLeak "x" "" [("foo", "bar")]).fmtLeaked = 1 := by
  exact ⟨by decide, by decide⟩

/-- C9: acquiring a Scoped Unreference Guard on a packet and letting it leave
scope performs exactly one buffer-unreference and nothing else — no allocation
and no deallocation events — and leaves the handle wrapping the same native
packet (same identity), with the guard's implicit conversion exposing the
packet unchanged. -/
theorem C9_packet_unref_guard (p : AVPacket) :
    (autoPacketUnrefScope p).2 = [PacketEv.unref]
    ∧ (autoPacketUnrefScope p).2.count PacketEv.unref = 1
    ∧ PacketEv.alloc ∉ (autoPacketUnrefScope p).2
    ∧ PacketEv.free ∉ (autoPacketUnrefScope p).2
    ∧ (autoPacketUnrefScope p).1.pid = p.pid
    ∧ AutoPacketUnref.conv p = p := by
  refine ⟨rfl, rfl, ?_, ?_, rfl, rfl⟩ <;> simp [autoPacketUnrefScope, av_packet_unref]

/-- C10: in `get_format_context` the unused-option check precedes the
open-status check: whenever the open call reports a negative status and
unconsumed option keys remain, the error thrown is the unrecognized-option
error (listing those keys), not the open error. -/
theorem C10_unused_option_check_precedes_status_check (fe : FormatEnv)
    (src device : String) (opt : List (String × String))
    (_hst : fmtOpenStatus fe src device opt < 0)
    (hrem : fmtRemaining fe src device opt ≠ []) :
    (AVFormatContextPtr.make fe src device opt).result
      = .error (.unrecognizedOption ("Unexpected options: "
          ++ join (clean_up_dict (fmtRemaining fe src device opt)))) := by
  have hcond : (clean_up_dict (fmtRemaining fe src device opt)).length ≠ 0 :=
    clean_up_dict_length_ne_zero _ hrem
  simp only [AVFormatContextPtr.make, get_format_context, if_pos hcond]

/-- C10 witness: with a library failing the open with status -2 and consuming
nothing, and option set `{opt1: v}`, the error is the unrecognized-option
error. -/
theorem C10_unused_option_check_precedes_status_check_witness :
    (AVFormatContextPtr.make fmtEnvOpenFail "badsrc" "" [("opt1", "v")]).result
      = .error (.unrecognizedOption ("Unexpected options: "
          ++ join (clean_up_dict (fmtRemaining fmtEnvOpenFail "badsrc" "" [("opt1", "v")])))) :=
  C10_unused_option_check_precedes_status_check fmtEnvOpenFail "badsrc" "" [("opt1", "v")]
    (by decide) (by decide)

/-- C5 counterexample: the open call reports a negative status (-2), yet
because the unconsumed key "foo" remains, construction fails with the
unrecognized-option error — whose message does not mention the source — and
not with an OpenError, refuting the claim as universally stated. -/
theorem C5_counterexample :
    fmtOpenStatus fmtEnvOpenFail "badsrc" "" [("foo", "bar")] < 0
    ∧ (AVFormatContextPtr.make fmtEnvOpenFail "badsrc" "" [("foo", "bar")]).result
        = .error (.unrecognizedOption "Unexpected options: \"foo\"")
    ∧ isOpenErr (AVFormatContextPtr.make fmtEnvOpenFail "badsrc" "" [("foo", "bar")]).result
        = false := by
  exact ⟨by decide, by decide, by decide⟩

/-- C5 (amended): when the open call reports a negative status and no
unconsumed option keys remain, `FormatContext.open` fails with an OpenError
whose message contains both the literal source path and the library's textual
description of that status. -/
theorem C5_open_error_message (fe : FormatEnv) (src device : String)
    (opt : List (String × String))
    (hrem : fmtRemaining fe src device opt = [])
    (hst : fmtOpenStatus fe src device opt < 0) :
    (AVFormatContextPtr.make fe src device opt).result
      = .error (.openError ("Failed to open the input \"" ++ src ++ "\" ("
          ++ fe.av_err2string (fmtOpenStatus fe src device opt) ++ ")."))
    ∧ containsSub ("Failed to open the input \"" ++ src ++ "\" ("
        ++ fe.av_err2string (fmtOpenStatus fe src device opt) ++ ").") src
    ∧ containsSub ("Failed to open the input \"" ++ src ++ "\" ("
        ++ fe.av_err2string (fmtOpenStatus fe src device opt) ++ ").")
        (fe.av_err2string (fmtOpenStatus fe src device opt)) := by
  refine ⟨?_, ?_, ?_⟩
  · have hcond : ¬ (clean_up_dict (fmtRemaining fe src device opt)).length ≠ 0 := by
      rw [hrem]
      simp [clean_up_dict]
    simp only [AVFormatContextPtr.make, get_format_context, if_neg hcond, if_pos hst]
  · refine ⟨"Failed to open the input \"",
      "\" (" ++ fe.av_err2string (fmtOpenStatus fe src device opt) ++ ").", ?_⟩
    apply String.ext
    simp [String.data_append]
  · refine ⟨"Failed to open the input \"" ++ src ++ "\" (", ").", ?_⟩
    apply String.ext
    simp [String.data_append]

/-- C5 witness: a failed open of "nofile.wav" with no options yields the
OpenError whose message embeds the path and the library's error text. -/
theorem C5_open_error_message_witness :
    (AVFormatContextPtr.make fmtEnvOpenFail "nofile.wav" "" []).result
      = .error (.openError ("Failed to open the input \"" ++ "nofile.wav" ++ "\" ("
          ++ fmtEnvOpenFail.av_err2string (fmtOpenStatus fmtEnvOpenFail "nofile.wav" "" [])
          ++ ")."))
    ∧ containsSub ("Failed to open the input \"" ++ "nofile.wav" ++ "\" ("
        ++ fmtEnvOpenFail.av_err2string (fmtOpenStatus fmtEnvOpenFail "nofile.wav" "" [])
        ++ ").") "nofile.wav"
    ∧ containsSub ("Failed to open the input \"" ++ "nofile.wav" ++ "\" ("
        ++ fmtEnvOpenFail.av_err2string (fmtOpenStatus fmtEnvOpenFail "nofile.wav" "" [])
        ++ ").")
        (fmtEnvOpenFail.av_err2string (fmtOpenStatus fmtEnvOpenFail "nofile.wav" "" [])) :=
  C5_open_error_message fmtEnvOpenFail "nofile.wav" "" [] (by decide) (by decide)

/-- C6 counterexample: the device name "nodev" does not resolve to an input
format, yet `FormatContext.open` succeeds (the open call auto-detects the
format): no UnsupportedDeviceError — indeed no error at all — is raised, so
the claim that construction fails whenever device resolution fails is false. -/
theorem C6_counterexample :
    fmtEnvAuto.av_find_input_format "nodev" = none
    ∧ (AVFormatContextPtr.make fmtEnvAuto "file.wav" "nodev" []).result
        = .ok { src := "file.wav", streamInfoFound := true } := by
  exact ⟨rfl, by decide⟩

/-- C6 (amended): a non-empty device name that fails to resolve yields a null
input-format descriptor and is not checked separately: `FormatContext.open`
behaves exactly as if no device had been given, so any failure surfaces as the
ordinary open/option/probing error of that run, never as a device-specific
error. -/
theorem C6_unresolved_device_behaves_as_no_device (fe : FormatEnv) (src device : String)
    (opt : List (String × String)) (hdev : device ≠ "")
    (hres : fe.av_find_input_format device = none) :
    resolvedInputFormat fe device = none
    ∧ AVFormatContextPtr.make fe src device opt = AVFormatContextPtr.make fe src "" opt := by
  have h1 : resolvedInputFormat fe device = none := by
    simp [resolvedInputFormat, hdev, hres]
  have h2 : resolvedInputFormat fe "" = none := by
    simp [resolvedInputFormat]
  refine ⟨h1, ?_⟩
  simp only [AVFormatContextPtr.make, get_format_context, fmtOpenStatus, fmtRemaining,
    fmtOpenCall, h1, h2]

/-- C6 witness: opening "file.wav" with unresolvable device "nodev" gives the
null descriptor and the very same outcome as opening with no device. -/
theorem C6_unresolved_device_behaves_as_no_device_witness :
    resolvedInputFormat fmtEnvAuto "nodev" = none
    ∧ AVFormatContextPtr.make fmtEnvAuto "file.wav" "nodev" []
        = AVFormatContextPtr.make fmtEnvAuto "file.wav" "" [] :=
  C6_unresolved_device_behaves_as_no_device fmtEnvAuto "file.wav" "nodev" []
    (by decide) rfl

/-- C7: the decoder is looked up by the explicit decoder name when one is
given and otherwise by the codec identifier from the parameters; when lookup
returns nothing, construction fails with the unsupported-codec error whose
message contains the requested decoder name when a name was given, and
otherwise both the codec's symbolic name and its numeric id. -/
theorem C7_unsupported_codec_lookup (ce : CodecEnv) (pParams : AVCodecParameters)
    (dn : String) (dopt : List (String × String)) :
    (findDecoder ce pParams.codec_id dn
        = if dn = "" then ce.avcodec_find_decoder pParams.codec_id
          else ce.avcodec_find_decoder_by_name dn)
    ∧ (dn = "" → ce.avcodec_find_decoder pParams.codec_id = none →
        (AVCodecContextPtr.make ce pParams dn dopt).result
          = .error (.unsupportedCodec ("Unsupported codec: \""
              ++ ce.avcodec_get_name pParams.codec_id ++ "\", ("
              ++ toString pParams.codec_id ++ ")."))
        ∧ containsSub ("Unsupported codec: \"" ++ ce.avcodec_get_name pParams.codec_id
            ++ "\", (" ++ toString pParams.codec_id ++ ").")
            (ce.avcodec_get_name pParams.codec_id)
        ∧ containsSub ("Unsupported codec: \"" ++ ce.avcodec_get_name pParams.codec_id
            ++ "\", (" ++ toString pParams.codec_id ++ ").") (toString pParams.codec_id))
    ∧ (dn ≠ "" → ce.avcodec_find_decoder_by_name dn = none →
        (AVCodecContextPtr.make ce pParams dn dopt).result
          = .error (.unsupportedCodec ("Unsupported codec: \"" ++ dn ++ "\"."))
        ∧ containsSub ("Unsupported codec: \"" ++ dn ++ "\".") dn) := by
  refine ⟨rfl, ?_, ?_⟩
  · intro hdn hnone
    subst hdn
    have hfd : findDecoder ce pParams.codec_id "" = none := by
      simp [findDecoder, hnone]
    refine ⟨?_, ?_, ?_⟩
    · simp [AVCodecContextPtr.make, get_codec_context, hfd]
    · refine ⟨"Unsupported codec: \"", "\", (" ++ toString pParams.codec_id ++ ").", ?_⟩
      apply String.ext
      simp [String.data_append]
    · refine ⟨"Unsupported codec: \"" ++ ce.avcodec_get_name pParams.codec_id ++ "\", (",
        ").", ?_⟩
      apply String.ext
      simp [String.data_append]
  · intro hdn hnone
    have hfd : findDecoder ce pParams.codec_id dn = none := by
      simp [findDecoder, hdn, hnone]
    refine ⟨?_, ?_⟩
    · simp [AVCodecContextPtr.make, get_codec_context, hfd, hdn]
    · refine ⟨"Unsupported codec: \"", "\".", ?_⟩
      apply String.ext
      simp [String.data_append]

/-- C7 witness: with a library knowing no decoder, an empty decoder name
yields the message naming codec 27 by symbolic name and numeric id, and the
decoder name "x264" yields the message naming "x264". -/
theorem C7_unsupported_codec_lookup_witness :
    (AVCodecContextPtr.make codecEnvNoDecoder paramsVideo "" []).result
      = .error (.unsupportedCodec ("Unsupported codec: \""
          ++ codecEnvNoDecoder.avcodec_get_name paramsVideo.codec_id ++ "\", ("
          ++ toString paramsVideo.codec_id ++ ")."))
    ∧ (AVCodecContextPtr.make codecEnvNoDecoder paramsVideo "x264" []).result
      = .error (.unsupportedCodec ("Unsupported codec: \"" ++ "x264" ++ "\".")) :=
  ⟨((C7_unsupported_codec_lookup codecEnvNoDecoder paramsVideo "" []).2.1 rfl rfl).1,
   ((C7_unsupported_codec_lookup codecEnvNoDecoder paramsVideo "x264" []).2.2
      (by decide) rfl).1⟩

/-- C8: on every handle holding a graph, `reset` with a succeeding allocator
replaces the owned graph by the freshly allocated empty one (no filters),
frees exactly the old graph, and keeps the handle's identity; with a failing
allocator it throws the allocation error leaving the handle untouched; in
either case the handle's identity is preserved and its resource is never
null. -/
theorem C8_filter_graph_reset (ge : FilterEnv) (nextGid : Nat) (h : AVFilterGraphPtr)
    (g0 : AVFilterGraph) (h0 : h.res = some g0) :
    (ge.avfilter_graph_alloc_ok = true →
      AVFilterGraphPtr.reset ge nextGid h
        = { result := .ok (),
            handle := { hid := h.hid, res := some { gid := nextGid, nb_filters := 0 } },
            freedGids := [g0.gid] })
    ∧ (ge.avfilter_graph_alloc_ok = false →
      AVFilterGraphPtr.reset ge nextGid h
        = { result := .error (.allocation "Failed to allocate resouce."),
            handle := h, freedGids := [] })
    ∧ (AVFilterGraphPtr.reset ge nextGid h).handle.hid = h.hid
    ∧ (AVFilterGraphPtr.reset ge nextGid h).handle.res.isSome = true := by
  cases hok : ge.avfilter_graph_alloc_ok <;>
    simp [AVFilterGraphPtr.reset, get_filter_graph, hok, h0]

/-- C8 witness: resetting a handle (identity 5) owning graph 1 with 3 filters
installs the fresh empty graph 2 and frees graph 1. -/
theorem C8_filter_graph_reset_witness :
    AVFilterGraphPtr.reset filterEnvOk 2 { hid := 5, res := some { gid := 1, nb_filters := 3 } }
      = { result := .ok (),
          handle := { hid := 5, res := some { gid := 2, nb_filters := 0 } },
          freedGids := [1] } :=
  (C8_filter_graph_reset filterEnvOk 2
    { hid := 5, res := some { gid := 1, nb_filters := 3 } }
    { gid := 1, nb_filters := 3 } rfl).1 rfl

/-- A successful `init_codec_context` yields a context with the parameters
copied in and the codec opened. -/
theorem init_codec_context_ok_ctx (env : CodecEnv) (ctx : AVCodecContext)
    (pParams : AVCodecParameters) (dn : String) (dopt : List (String × String))
    (c : AVCodecContext) (p : AVCodecParameters)
    (hok : (init_codec_context env ctx pParams dn dopt).result = .ok (c, p)) :
    c.paramsSet = true ∧ c.opened = true := by
  simp only [init_codec_context] at hok
  split at hok
  · simp at hok
  · split at hok
    · simp at hok
    · split at hok
      · simp at hok
      · simp only [Except.ok.injEq, Prod.mk.injEq] at hok
        rw [← hok.1]
        exact ⟨rfl, rfl⟩

/-- A successful `init_codec_context` returns the caller's parameters with the
channel layout back-filled from the library default for the final context's
channel count exactly when the parameters are audio without a layout. -/
theorem init_codec_context_ok_params (env : CodecEnv) (ctx : AVCodecContext)
    (pParams : AVCodecParameters) (dn : String) (dopt : List (String × String))
    (c : AVCodecContext) (p : AVCodecParameters)
    (hok : (init_codec_context env ctx pParams dn dopt).result = .ok (c, p)) :
    p = (if pParams.codec_type = AVMEDIA_TYPE_AUDIO ∧ pParams.channel_layout = 0 then
          { pParams with channel_layout := env.av_get_default_channel_layout c.channels }
        else pParams) := by
  simp only [init_codec_context] at hok
  split at hok
  · simp at hok
  · split at hok
    · simp at hok
    · split at hok
      · simp at hok
      · simp only [Except.ok.injEq, Prod.mk.injEq] at hok
        rw [← hok.1, ← hok.2]

/-- Splitting a successful `AVCodecContextPtr` construction into its two
phases: a successful allocation and a successful initialization. -/
theorem AVCodecContextPtr.make_ok_split (ce : CodecEnv) (pParams : AVCodecParameters)
    (dn : String) (dopt : List (String × String)) (c : AVCodecContext)
    (p : AVCodecParameters)
    (hok : (AVCodecContextPtr.make ce pParams dn dopt).result = .ok (c, p)) :
    ∃ ctx0, get_codec_context ce pParams.codec_id dn = .ok ctx0
      ∧ (init_codec_context ce ctx0 pParams dn dopt).result = .ok (c, p) := by
  simp only [AVCodecContextPtr.make] at hok
  split at hok
  · simp at hok
  · rename_i ctx0 heq
    split at hok
    · simp at hok
    · rename_i res heqo
      simp only [Except.ok.injEq] at hok
      exact ⟨ctx0, heq, by rw [heqo, hok]⟩

/-- C3: each of the five constructors either throws or yields a handle over a
non-null, fully initialized resource.  Packet, Frame, FilterGraph and
CodecContext throw exactly the allocation error when native allocation
returns null (with nothing allocated and nothing leaked); any FormatContext
that is actually returned has had its streams probed and nothing leaks; any
CodecContext that is actually returned has the stream parameters copied in
and the codec opened — the intermediate context of the two-phase construction
is never returned. -/
theorem C3_constructors_all_or_nothing (pe : PacketEnv) (fre : FrameEnv) (ge : FilterEnv)
    (nextGid hid : Nat) (fe : FormatEnv) (src device : String)
    (opt : List (String × String)) (ce : CodecEnv) (pParams : AVCodecParameters)
    (dn : String) (dopt : List (String × String)) :
    ((pe.av_packet_alloc = none →
        AVPacketPtr.make pe = .error (.allocation "Failed to allocate AVPacket object."))
      ∧ (∀ p, AVPacketPtr.make pe = .ok p → pe.av_packet_alloc = some p))
    ∧ ((fre.av_frame_alloc = none →
        AVFramePtr.make fre = .error (.allocation "Failed to allocate AVFrame object."))
      ∧ (∀ f, AVFramePtr.make fre = .ok f → fre.av_frame_alloc = some f))
    ∧ ((ge.avfilter_graph_alloc_ok = false →
        AVFilterGraphPtr.make ge nextGid hid
          = .error (.allocation "Failed to allocate resouce."))
      ∧ (∀ hdl, AVFilterGraphPtr.make ge nextGid hid = .ok hdl →
          hdl.res = some { gid := nextGid, nb_filters := 0 }))
    ∧ (∀ ctx, (AVFormatContextPtr.make fe src device opt).result = .ok ctx →
        ctx.streamInfoFound = true
        ∧ (AVFormatContextPtr.make fe src device opt).fmtLeaked = 0
        ∧ (AVFormatContextPtr.make fe src device opt).dictLeaked = 0)
    ∧ ((∀ c, findDecoder ce pParams.codec_id dn = some c →
          ce.avcodec_alloc_context3 c = false →
          AVCodecContextPtr.make ce pParams dn dopt
            = { result := .error (.allocation "Failed to allocate CodecContext."),
                ctxLeaked := 0, dictLeaked := 0 })
      ∧ (∀ c p, (AVCodecContextPtr.make ce pParams dn dopt).result = .ok (c, p) →
          c.paramsSet = true ∧ c.opened = true)) := by
  refine ⟨⟨?_, ?_⟩, ⟨?_, ?_⟩, ⟨?_, ?_⟩, ?_, ⟨?_, ?_⟩⟩
  · intro h
    simp [AVPacketPtr.make, get_av_packet, h]
  · intro p hp
    cases halloc : pe.av_packet_alloc with
    | none => simp [AVPacketPtr.make, get_av_packet, halloc] at hp
    | some q =>
      simp [AVPacketPtr.make, get_av_packet, halloc] at hp
      rw [hp]
  · intro h
    simp [AVFramePtr.make, get_av_frame, h]
  · intro f hf
    cases halloc : fre.av_frame_alloc with
    | none => simp [AVFramePtr.make, get_av_frame, halloc] at hf
    | some q =>
      simp [AVFramePtr.make, get_av_frame, halloc] at hf
      rw [hf]
  · intro hga
    simp [AVFilterGraphPtr.make, get_filter_graph, hga]
  · intro hdl hmk
    cases hga : ge.avfilter_graph_alloc_ok with
    | false => simp [AVFilterGraphPtr.make, get_filter_graph, hga] at hmk
    | true =>
      simp [AVFilterGraphPtr.make, get_filter_graph, hga] at hmk
      rw [← hmk]
  · intro ctx
    simp only [AVFormatContextPtr.make]
    split
    · rename_i heq
      intro hok
      rw [heq] at hok
      simp at hok
    · rename_i c heq
      split
      · intro hok
        simp at hok
      · intro hok
        simp only [Except.ok.injEq] at hok
        rw [← hok]
        exact ⟨rfl, rfl, rfl⟩
  · intro c hfd halloc
    simp [AVCodecContextPtr.make, get_codec_context, hfd, halloc]
  · intro c p hok
    obtain ⟨ctx0, hg, hinit⟩ := AVCodecContextPtr.make_ok_split ce pParams dn dopt c p hok
    exact init_codec_context_ok_ctx ce ctx0 pParams dn dopt c p hinit

/-- C3 witness: each allocation-failure environment produces exactly the
allocation error (with nothing leaked for the codec context), instantiating
the theorem at concrete inputs. -/
theorem C3_constructors_all_or_nothing_witness :
    AVPacketPtr.make pktEnvNone = .error (.allocation "Failed to allocate AVPacket object.")
    ∧ AVFramePtr.make frameEnvNone = .error (.allocation "Failed to allocate AVFrame object.")
    ∧ AVFilterGraphPtr.make filterEnvFail 0 0
        = .error (.allocation "Failed to allocate resouce.")
    ∧ AVCodecContextPtr.make codecEnvAllocFail paramsAudioStereo "" []
        = { result := .error (.allocation "Failed to allocate CodecContext."),
            ctxLeaked := 0, dictLeaked := 0 } := by
  have h := C3_constructors_all_or_nothing pktEnvNone frameEnvNone filterEnvFail 0 0
    fmtEnvAuto "f" "" [] codecEnvAllocFail paramsAudioStereo "" []
  exact ⟨h.1.1 rfl, h.2.1.1 rfl, h.2.2.1.1 rfl,
    h.2.2.2.2.1 { cname := "aac" } rfl rfl⟩

/-- C4 counterexample: with audio parameters lacking a layout, a codec that
opens successfully reporting 9 channels, and a library whose default-layout
table has no entry for 9 channels (it returns 0), construction succeeds but
the back-filled channel layout is 0 — not non-zero as the claim states. -/
theorem C4_counterexample :
    (AVCodecContextPtr.make codecEnvLayoutZero paramsAudioNine "" []).result
      = .ok ({ codec := { cname := "aac" }, paramsSet := true, opened := true, channels := 9 },
             { codec_id := 86018, codec_type := 1, channel_layout := 0, channels := 9 }) := by
  decide

/-- C4 (amended): after a successful `CodecContext.open`, audio parameters
that lacked a channel layout carry exactly the library's default layout for
the opened context's channel count (hence a non-zero layout whenever the
library defines a default for that count); parameters that already had a
layout, and non-audio parameters, are returned unmodified. -/
theorem C4_channel_layout_backfill (ce : CodecEnv) (pParams : AVCodecParameters)
    (dn : String) (dopt : List (String × String)) (c : AVCodecContext)
    (p : AVCodecParameters)
    (hok : (AVCodecContextPtr.make ce pParams dn dopt).result = .ok (c, p)) :
    (pParams.codec_type = AVMEDIA_TYPE_AUDIO ∧ pParams.channel_layout = 0 →
      p.channel_layout = ce.av_get_default_channel_layout c.channels
      ∧ (ce.av_get_default_channel_layout c.channels ≠ 0 → p.channel_layout ≠ 0))
    ∧ (¬(pParams.codec_type = AVMEDIA_TYPE_AUDIO ∧ pParams.channel_layout = 0) →
      p = pParams) := by
  obtain ⟨ctx0, hg, hinit⟩ := AVCodecContextPtr.make_ok_split ce pParams dn dopt c p hok
  have hp := init_codec_context_ok_params ce ctx0 pParams dn dopt c p hinit
  constructor
  · intro hcond
    rw [if_pos hcond] at hp
    rw [hp]
    exact ⟨rfl, fun hnz => hnz⟩
  · intro hcond
    rw [if_neg hcond] at hp
    exact hp
/-- C4 witness: with the stereo library (default layout 3 for 2 channels) and
audio parameters lacking a layout, the returned parameters carry layout 3 —
the library default for the opened context's 2 channels — which is non-zero. -/
theorem C4_channel_layout_backfill_witness :
    ({ codec_id := 86018, codec_type := 1, channel_layout := 3, channels := 2 }
        : AVCodecParameters).channel_layout
      = codecEnvStereo.av_get_default_channel_layout
          ({ codec := { cname := "aac" }, paramsSet := true, opened := true, channels := 2 }
            : AVCodecContext).channels
    ∧ ({ codec_id := 86018, codec_type := 1, channel_layout := 3, channels := 2 }
        : AVCodecParameters).channel_layout ≠ 0 := by
  have h := (C4_channel_layout_backfill codecEnvStereo paramsAudioStereo "" []
    { codec := { cname := "aac" }, paramsSet := true, opened := true, channels := 2 }
    { codec_id := 86018, codec_type := 1, channel_layout := 3, channels := 2 }
    (by decide)).1 (by decide)
  exact ⟨h.1, h.2 (by decide)⟩

/-- C1 counterexample: on the CodecContext side the unused-option check does
not fire when the codec-open call itself failed: with an open status of -1 and
the key "x" left unconsumed, construction fails with the codec-open error, not
with the unrecognized-option error the claim requires. -/
theorem C1_counterexample :
    codecRemaining codecEnvOpenFail (codecCtxAfterParams ctxFreshAac paramsAudioStereo)
        paramsAudioStereo "" [("x", "y")] ≠ []
    ∧ (AVCodecContextPtr.make codecEnvOpenFail paramsAudioStereo "" [("x", "y")]).result
        = .error (.codecOpen "Failed to initialize CodecContext.") := by
  exact ⟨by decide, by decide⟩

/-- C1 (amended): for `FormatContext.open`, whenever the open call leaves
option keys unconsumed, construction fails with the unrecognized-option error
whose message enumerates exactly those keys in the order encountered, each
double-quoted, separated by ", "; when every key is consumed no
unrecognized-option error is raised.  For `CodecContext.open` the same holds
provided the codec-open call reported success; when every key is consumed, no
unrecognized-option error is raised regardless of status. -/
theorem C1_unrecognized_option_reporting (fe : FormatEnv) (src device : String)
    (opt : List (String × String)) (ce : CodecEnv) (pParams : AVCodecParameters)
    (dn : String) (dopt : List (String × String)) :
    (fmtRemaining fe src device opt ≠ [] →
      (AVFormatContextPtr.make fe src device opt).result
        = .error (.unrecognizedOption ("Unexpected options: "
            ++ quotedKeyList (clean_up_dict (fmtRemaining fe src device opt)))))
    ∧ (fmtRemaining fe src device opt = [] →
        ∀ m, (AVFormatContextPtr.make fe src device opt).result
          ≠ .error (.unrecognizedOption m))
    ∧ (∀ ctx0, get_codec_context ce pParams.codec_id dn = .ok ctx0 →
        ¬ ce.avcodec_parameters_to_context ctx0 pParams < 0 →
        ¬ (codecOpenCall ce (codecCtxAfterParams ctx0 pParams) pParams dn dopt).1 < 0 →
        codecRemaining ce (codecCtxAfterParams ctx0 pParams) pParams dn dopt ≠ [] →
        (AVCodecContextPtr.make ce pParams dn dopt).result
          = .error (.unrecognizedOption ("Unexpected decoder options: "
              ++ quotedKeyList (clean_up_dict
                  (codecRemaining ce (codecCtxAfterParams ctx0 pParams) pParams dn dopt)))))
    ∧ (∀ ctx0, get_codec_context ce pParams.codec_id dn = .ok ctx0 →
        ¬ ce.avcodec_parameters_to_context ctx0 pParams < 0 →
        codecRemaining ce (codecCtxAfterParams ctx0 pParams) pParams dn dopt = [] →
        ∀ m, (AVCodecContextPtr.make ce pParams dn dopt).result
          ≠ .error (.unrecognizedOption m)) := by
  refine ⟨?_, ?_, ?_, ?_⟩
  · intro hrem
    have hcond := clean_up_dict_length_ne_zero _ hrem
    simp only [AVFormatContextPtr.make, get_format_context, if_pos hcond,
      join_eq_quotedKeyList]
  · intro hrem m
    by_cases hret : fmtOpenStatus fe src device opt < 0
    · simp [AVFormatContextPtr.make, get_format_context, hrem, clean_up_dict, if_pos hret]
    · by_cases hsi :
        fe.avformat_find_stream_info { src := src, streamInfoFound := false } < 0
      · simp [AVFormatContextPtr.make, get_format_context, hrem, clean_up_dict,
          if_neg hret, hsi]
      · simp [AVFormatContextPtr.make, get_format_context, hrem, clean_up_dict,
          if_neg hret, hsi]
  · intro ctx0 hctx hcopy hst hrem
    have hcond := clean_up_dict_length_ne_zero _ hrem
    simp only [AVCodecContextPtr.make, hctx, init_codec_context, if_neg hcopy,
      if_neg hst, if_pos hcond, join_eq_quotedKeyList]
  · intro ctx0 hctx hcopy hrem m
    by_cases hst : (codecOpenCall ce (codecCtxAfterParams ctx0 pParams) pParams dn dopt).1 < 0
    · simp [AVCodecContextPtr.make, hctx, init_codec_context, if_neg hcopy, if_pos hst]
    · simp [AVCodecContextPtr.make, hctx, init_codec_context, hrem, clean_up_dict,
        if_neg hcopy, if_neg hst]

/-- C1 witness: with an open call consuming nothing, an option set `{foo: bar}`
to `FormatContext.open` yields the unrecognized-option error listing "foo"
quoted, and a decoder-option set `{x: y}` under a successful codec open yields
the unrecognized-option error listing "x" quoted. -/
theorem C1_unrecognized_option_reporting_witness :
    (AVFormatContextPtr.make fmtEnvLeak "x" "" [("foo", "bar")]).result
      = .error (.unrecognizedOption ("Unexpected options: "
          ++ quotedKeyList (clean_up_dict (fmtRemaining fmtEnvLeak "x" "" [("foo", "bar")]))))
    ∧ (AVCodecContextPtr.make codecEnvUnusedKey paramsAudioStereo "" [("x", "y")]).result
      = .error (.unrecognizedOption ("Unexpected decoder options: "
          ++ quotedKeyList (clean_up_dict (codecRemaining codecEnvUnusedKey
              (codecCtxAfterParams ctxFreshAac paramsAudioStereo) paramsAudioStereo ""
              [("x", "y")])))) :=
  ⟨(C1_unrecognized_option_reporting fmtEnvLeak "x" "" [("foo", "bar")] codecEnvUnusedKey
      paramsAudioStereo "" [("x", "y")]).1 (by decide),
   (C1_unrecognized_option_reporting fmtEnvLeak "x" "" [("foo", "bar")] codecEnvUnusedKey
      paramsAudioStereo "" [("x", "y")]).2.2.1 ctxFreshAac (by decide) (by decide)
      (by decide) (by decide)⟩
